import Mathlib

/-!
Verification development for the HR ticket triage proof-of-concept.

The repository's visible source is the frontend: `frontend/js/app.js`
(ticket submission form, AI health monitor, webhook dispatch to the n8n
automation endpoint) and the dashboard script (ticket table, detail modal,
resolve action, HTML escaping).  The Flask backend (`backend/server.py`:
ticket store, classification orchestrator, analytics aggregator, resolve
endpoint) is not part of the checked-in source; where a property concerns
it, the corresponding definition is modelled from the written specification
and is marked as such in its doc comment.

JavaScript is embedded shallowly: async functions become pure Lean
functions from the outcomes of their I/O actions (fetch results) to the
DOM/UI effects they perform, effects being recorded as explicit event
traces or state records; a JS exception is `Except JsError`; `try/catch`
is an explicit combinator on `Except`.
-/

namespace Triage

/-- A JavaScript runtime error value (`throw new Error(msg)` or a rejected
promise). -/
inductive JsError where
  | err (msg : String)
deriving DecidableEq, Repr

/-- JS `try { body } catch (e) { handler }`: the handler receives the thrown
error; if the handler itself completes normally the whole statement does. -/
def jsTry {α : Type} (body : Except JsError α) (handler : JsError → Except JsError α) :
    Except JsError α :=
  match body with
  | .ok v => .ok v
  | .error e => handler e

/-- Ticket status as stored by the backend: `pending | classified | resolved`. -/
inductive Status where
  | pending
  | classified
  | resolved
deriving DecidableEq, Repr

/-- Forward order on statuses: `pending → classified → resolved`. -/
def Status.rank : Status → Nat
  | .pending => 0
  | .classified => 1
  | .resolved => 2

/-- The JSON string value of a status, as it appears on the wire and in the
dashboard templates. -/
def Status.str : Status → String
  | .pending => "pending"
  | .classified => "classified"
  | .resolved => "resolved"

/-- A ticket record (schema of spec section 3; the JSON object exchanged by
every endpoint).  Confidence is modelled as a rational in place of the JSON
float. -/
structure Ticket where
  id : String
  employee_name : String
  employee_email : String
  subject : String
  description : String
  status : Status
  ai_category : Option String
  ai_confidence : Option ℚ
  ai_response : Option String
  created_at : String
  resolved_at : Option String
  resolved_by : Option String
deriving DecidableEq, Repr

/-! ## Frontend: AI health monitor (`frontend/js/app.js`, `checkAIHealth`) -/

/-- The parsed JSON body returned by `GET /api/ai/health`. -/
structure HealthResponse where
  statusField : String
  reason : Option String
deriving DecidableEq, Repr

/-- Outcome of the probe `fetch('/api/ai/health')` followed by
`response.json()`: either a parsed body, or a rejection (network failure or
malformed JSON), which lands in the `catch` block. -/
inductive ProbeOutcome where
  | ok (health : HealthResponse)
  | fetchError
deriving DecidableEq, Repr

/-- The DOM state `checkAIHealth` reads and writes: the status pill, the
submit button, and the module-level `aiConnected` flag.  `aiStatusPresent`
models whether `document.getElementById('aiStatus')` found the element
(the function returns immediately when it did not). -/
structure UIState where
  aiStatusPresent : Bool
  statusIcon : String
  statusText : String
  statusClasses : List String
  submitDisabled : Bool
  btnText : String
  aiConnected : Bool
deriving DecidableEq, Repr

/-- `checkAIHealth` (app.js lines 26-59), as a function from the pre-state
and the probe outcome to the post-state together with the list of retry
delays passed to `setTimeout(checkAIHealth, _)` during this run
(milliseconds). -/
def checkAIHealth (pre : UIState) (probe : ProbeOutcome) : UIState × List Nat :=
  if pre.aiStatusPresent = false then (pre, [])
  else
    match probe with
    | .ok health =>
      if health.statusField = "connected" then
        ({ pre with
            statusIcon := "🟢"
            statusText := "AI Connected"
            statusClasses := pre.statusClasses ++ ["connected"]
            submitDisabled := false
            aiConnected := true }, [])
      else if health.statusField = "loading" then
        ({ pre with
            statusIcon := "🟡"
            statusText := "AI Model Loading..."
            statusClasses := pre.statusClasses ++ ["loading"] }, [5000])
      else
        ({ pre with
            statusIcon := "🔴"
            statusText := "AI Unavailable: " ++
              (match health.reason with
               | some r => if r = "" then "Unknown error" else r
               | none => "Unknown error")
            statusClasses := pre.statusClasses ++ ["error"]
            submitDisabled := false
            btnText := "Submit (AI Offline)" }, [])
    | .fetchError =>
        ({ pre with
            statusIcon := "🔴"
            statusText := "AI Unavailable: Connection error"
            statusClasses := pre.statusClasses ++ ["error"]
            submitDisabled := false
            btnText := "Submit (AI Offline)" }, [])

/-- Whether a probe outcome takes the `loading` branch of `checkAIHealth`
(a parsed body whose status is `"loading"`; `"connected"` is tested first
but the two string tests are mutually exclusive). -/
def probeIsLoading : ProbeOutcome → Bool
  | .ok health => health.statusField = "loading"
  | .fetchError => false

/-! ## Frontend: ticket submission (`frontend/js/app.js`, form submit handler,
`createTicket`, `triggerN8nWorkflow`) -/

/-- Outcome of the `fetch` inside `createTicket` (POST `/api/tickets`): a
network-level rejection, or an HTTP response with its `ok` flag and, when
`ok`, the parsed created ticket. -/
inductive CreateFetch where
  | networkError
  | response (ok : Bool) (body : Ticket)
deriving DecidableEq, Repr

/-- `createTicket` (app.js lines 104-118): throws (rejects) on a network
error or a non-ok response (`throw new Error('Failed to create ticket')`),
otherwise resolves with the parsed ticket. -/
def createTicket : CreateFetch → Except JsError Ticket
  | .networkError => .error (.err "NetworkError when attempting to fetch resource")
  | .response false _ => .error (.err "Failed to create ticket")
  | .response true t => .ok t

/-- Outcome of the `fetch` inside `triggerN8nWorkflow` (POST to the n8n
webhook URL): a rejection (network error / timeout) or an HTTP response
with some status code.  `fetch` does not reject on non-2xx statuses. -/
inductive DispatchFetch where
  | networkError
  | response (statusCode : Nat)
deriving DecidableEq, Repr

/-- The `fetch(N8N_WEBHOOK_URL, ...)` call itself, which can throw. -/
def fetchN8n : DispatchFetch → Except JsError Nat
  | .networkError => .error (.err "Could not reach n8n webhook")
  | .response st => .ok st

/-- `triggerN8nWorkflow` (app.js lines 123-141): the whole body is wrapped
in `try/catch`; on success the response is returned, on any rejection the
catch block only logs and the function resolves with `undefined`
(modelled `none`). -/
def triggerN8nWorkflow (df : DispatchFetch) : Except JsError (Option Nat) :=
  jsTry
    (do
      let st ← fetchN8n df
      pure (some st))
    (fun _e => .ok none)

/-- Observable steps of the form submit handler, in execution order.
`storeMutation` would record a write to ticket state; the handler performs
none after creation, so the constructor exists to make its absence a
statable fact. -/
inductive SubmitEvent where
  | loadingSet (isLoading : Bool)
  | ticketCreated (id : String)
  | dispatchStarted
  | dispatchCompleted
  | successShown (id : String)
  | formReset
  | errorAlert
  | storeMutation (id : String)
deriving DecidableEq, Repr

/-- The form submit handler (app.js lines 67-99) as the ordered trace of its
observable steps, given the outcomes of its two awaited calls:
`setLoading(true)`; `await createTicket` (a throw jumps to the catch,
which alerts); `await triggerN8nWorkflow`; `showSuccess(ticket.id)`;
`form.reset()`; `finally setLoading(false)`. -/
def submitHandler (cf : CreateFetch) (df : DispatchFetch) : List SubmitEvent :=
  [SubmitEvent.loadingSet true] ++
  (match createTicket cf with
   | .error _ => [SubmitEvent.errorAlert]
   | .ok t =>
     [SubmitEvent.ticketCreated t.id, SubmitEvent.dispatchStarted] ++
     (match triggerN8nWorkflow df with
      | .error _ => [SubmitEvent.errorAlert]
      | .ok _ =>
        [SubmitEvent.dispatchCompleted, SubmitEvent.successShown t.id,
         SubmitEvent.formReset])) ++
  [SubmitEvent.loadingSet false]

/-! ## Frontend: dashboard (dashboard script — `src/unnamed/part_000`) -/

/-- One character of the `escapeHtml` output.  `escapeHtml` sets
`div.textContent = text` and reads back `div.innerHTML`; HTML text
serialization rewrites `&` to `&amp;`, `<` to `&lt;` and `>` to `&gt;` and
leaves every other character as itself. -/
def escapeChar (c : Char) : String :=
  if c = '&' then "&amp;"
  else if c = '<' then "&lt;"
  else if c = '>' then "&gt;"
  else String.singleton c

/-- HTML-escaping of a whole string, character by character. -/
def escapeHtmlStr (s : String) : String :=
  s.data.foldr (fun c acc => escapeChar c ++ acc) ""

/-- `escapeHtml` (part_000 lines 391-396).  `if (!text) return ''` returns
the empty string on `null`/`undefined` (modelled `none`) and on the falsy
empty string; otherwise the textContent/innerHTML round trip escapes the
markup characters. -/
def escapeHtml (text : Option String) : String :=
  match text with
  | none => ""
  | some s => if s = "" then "" else escapeHtmlStr s

/-- JS truthiness of a nullable string field: `null`/`undefined` and `""`
are falsy. -/
def jsTruthyStr : Option String → Bool
  | none => false
  | some s => !(s = "")

/-- JS truthiness of a nullable numeric field: `null`/`undefined` and `0`
are falsy. -/
def jsTruthyNum : Option ℚ → Bool
  | none => false
  | some q => !(q = 0)

/-- `renderConfidence` (part_000 lines 246-256): a bar plus a percentage
label, `percent = Math.round(confidence * 100)`. -/
def renderConfidence (confidence : ℚ) : String :=
  let percent : ℤ := round (confidence * 100)
  "<div class=\"confidence\"><div class=\"confidence-bar\">" ++
  "<div class=\"confidence-fill\" style=\"width: " ++ toString percent ++ "%\"></div>" ++
  "</div><span class=\"confidence-text\">" ++ toString percent ++ "%</span></div>"

/-- One `<tr>` of the tickets table (`updateTable`, part_000 lines 230-240).
`fd` stands for `formatDate` (locale-dependent, kept abstract).  User text
goes through `escapeHtml`; `id`, `status`, `ai_category` and the confidence
markup are interpolated directly. -/
def updateTableRow (fd : String → String) (t : Ticket) : String :=
  "<tr onclick=\"showTicketDetail(\x27" ++ t.id ++ "\x27)\">" ++
  "<td><code>" ++ t.id.take 8 ++ "...</code></td>" ++
  "<td>" ++ escapeHtml (some t.employee_name) ++ "</td>" ++
  "<td>" ++ escapeHtml (some (if t.subject = "" then t.description.take 30 ++ "..."
                              else t.subject)) ++ "</td>" ++
  "<td>" ++ (if jsTruthyStr t.ai_category then
               "<span class=\"category-badge\">" ++ t.ai_category.getD "" ++ "</span>"
             else "-") ++ "</td>" ++
  "<td>" ++ (if jsTruthyNum t.ai_confidence then
               renderConfidence (t.ai_confidence.getD 0)
             else "-") ++ "</td>" ++
  "<td><span class=\"badge badge-" ++ t.status.str ++ "\">" ++ t.status.str ++
  "</span></td>" ++
  "<td>" ++ fd t.created_at ++ "</td>" ++
  "</tr>"

/-- The ticket detail modal body (`showTicketDetail`, part_000 lines
270-317).  `fd` abstracts `formatDate(_, true)`.  The AI classification
block, the AI response block and the resolve button are conditional on
truthiness of `ai_category` / `ai_response` and on `status !== 'resolved'`
respectively. -/
def showDetailHtml (fd : String → String) (t : Ticket) : String :=
  "<div class=\"ticket-detail\"><div class=\"label\">Ticket ID</div>" ++
  "<div class=\"value\"><code>" ++ t.id ++ "</code></div></div>" ++
  "<div class=\"ticket-detail\"><div class=\"label\">Employee</div>" ++
  "<div class=\"value\">" ++ escapeHtml (some t.employee_name) ++ " (" ++
  escapeHtml (some t.employee_email) ++ ")</div></div>" ++
  "<div class=\"ticket-detail\"><div class=\"label\">Subject</div>" ++
  "<div class=\"value\">" ++ escapeHtml (some t.subject) ++ "</div></div>" ++
  "<div class=\"ticket-detail\"><div class=\"label\">Description</div>" ++
  "<div class=\"value\">" ++ escapeHtml (some t.description) ++ "</div></div>" ++
  "<div class=\"ticket-detail\"><div class=\"label\">Status</div>" ++
  "<div class=\"value\"><span class=\"badge badge-" ++ t.status.str ++ "\">" ++
  t.status.str ++ "</span></div></div>" ++
  (if jsTruthyStr t.ai_category then
    "<div class=\"ticket-detail\"><div class=\"label\">AI Classification</div>" ++
    "<div class=\"value\"><span class=\"category-badge\">" ++ t.ai_category.getD "" ++
    "</span>" ++
    (if jsTruthyNum t.ai_confidence then
      "(" ++ toString (round ((t.ai_confidence.getD 0) * 100) : ℤ) ++ "% confidence)"
     else "") ++ "</div></div>"
   else "") ++
  (if jsTruthyStr t.ai_response then
    "<div class=\"ai-response\"><h4>AI Suggested Response</h4><p>" ++
    escapeHtml t.ai_response ++ "</p></div>"
   else "") ++
  "<div class=\"ticket-detail\"><div class=\"label\">Created</div>" ++
  "<div class=\"value\">" ++ fd t.created_at ++ "</div></div>" ++
  (if t.status = Status.resolved then ""
   else
    "<div class=\"modal-actions\" style=\"margin-top: 24px; text-align: right;\">" ++
    "<button class=\"btn btn-primary\" onclick=\"resolveTicket(\x27" ++ t.id ++
    "\x27)\">Resolve Ticket</button></div>")

/-- An outbound HTTP request as issued by the dashboard. -/
structure HttpRequest where
  url : String
  method : String
  contentType : String
  body : String
deriving DecidableEq, Repr

/-- UI effects of `resolveTicket` after the fetch settles. -/
inductive ResolveUiEvent where
  | modalClosed
  | dataRefreshed
  | successAlert
  | failureAlert
deriving DecidableEq, Repr

/-- Outcome of the `fetch` inside `resolveTicket`. -/
inductive ResolveFetch where
  | networkError
  | response (ok : Bool)
deriving DecidableEq, Repr

/-- `JSON.stringify(\x7baction: 'resolved', user: 'Dashboard User'\x7d)`. -/
def resolveBody : String :=
  "\x7b\"action\":\"resolved\",\"user\":\"Dashboard User\"\x7d"

/-- `resolveTicket` (part_000 lines 354-386): after the `confirm` dialog it
POSTs the fixed JSON body to `/api/tickets/:id/resolve`; a non-ok response
throws into the catch (failure alert only); on ok it closes the modal,
refreshes the data and alerts success.  Returns the request issued (if any)
and the UI events in order. -/
def resolveTicket (ticketId : String) (confirmed : Bool) (rf : ResolveFetch) :
    Option HttpRequest × List ResolveUiEvent :=
  if confirmed = false then (none, [])
  else
    let req : HttpRequest :=
      { url := "/api/tickets/" ++ ticketId ++ "/resolve"
        method := "POST"
        contentType := "application/json"
        body := resolveBody }
    match rf with
    | .networkError => (some req, [ResolveUiEvent.failureAlert])
    | .response false => (some req, [ResolveUiEvent.failureAlert])
    | .response true =>
        (some req,
         [ResolveUiEvent.modalClosed, ResolveUiEvent.dataRefreshed,
          ResolveUiEvent.successAlert])

/-! ## Backend (modelled from the spec)

The Flask backend `backend/server.py` is referenced by the README and the
frontend but is not among the checked-in sources, so the ticket store, the
classification orchestrator, the resolve action and the analytics
aggregator below are modelled from the specification text (sections 4.1,
4.3, 4.5, 4.6). -/

/-- The submission body of `POST /api/tickets`. -/
structure TicketInput where
  employee_name : String
  employee_email : String
  subject : String
  description : String
deriving DecidableEq, Repr

/-- A required string field is invalid when empty or blank (every character
is whitespace; the empty string is blank). -/
def blank (s : String) : Bool := s.data.all Char.isWhitespace

/-- Whether all four required fields are non-blank. -/
def TicketInput.valid (i : TicketInput) : Bool :=
  !(blank i.employee_name) && !(blank i.employee_email) &&
  !(blank i.subject) && !(blank i.description)

/-- The error taxonomy of spec section 7 (the classes the modelled
operations can return). -/
inductive ApiError where
  | validationError
  | notFound
  | invalidTransition
deriving DecidableEq, Repr

/-- The ticket store: the persisted collection of ticket records. -/
abbrev Store : Type := List Ticket

/-- Lookup by id (first record with a matching id). -/
def Store.get? (s : Store) (ticketId : String) : Option Ticket :=
  List.find? (fun t => t.id == ticketId) s

/-- Modelled from the spec: `backend/server.py` is not under src.
Spec 4.1 `create(ticketInput)`: fails with `ValidationError` if any
required field is empty/blank; generates the id and `created_at`,
persists, returns the full record (status starts at `pending`, all
classification and resolution fields absent).  The generated id and
timestamp are passed in as parameters. -/
def createTicketOp (s : Store) (input : TicketInput) (newId : String)
    (now : String) : Except ApiError (Store × Ticket) :=
  if input.valid then
    let t : Ticket :=
      { id := newId
        employee_name := input.employee_name
        employee_email := input.employee_email
        subject := input.subject
        description := input.description
        status := Status.pending
        ai_category := none
        ai_confidence := none
        ai_response := none
        created_at := now
        resolved_at := none
        resolved_by := none }
    .ok (s ++ [t], t)
  else .error ApiError.validationError

/-- A successful reply of the external classification endpoint: the
highest-scoring label, its score, and the suggested reply text. -/
structure Classification where
  category : String
  confidence : ℚ
  response : String
deriving DecidableEq, Repr

/-- The ways a classification attempt can fail (spec 4.3: timeout, service
error, malformed response). -/
inductive ClassifyFailure where
  | timeout
  | serviceError
  | malformedResponse
deriving DecidableEq, Repr

/-- Outcome of the orchestrator's call to the classification endpoint. -/
inductive ClassifyOutcome where
  | ok (c : Classification)
  | fail (f : ClassifyFailure)
deriving DecidableEq, Repr

/-- What the orchestrator reports back (spec 4.3:
`ClassificationResult | ClassificationUnavailable`) — a value, never an
exception. -/
inductive ClassifyResult where
  | classified
  | unavailable
deriving DecidableEq, Repr

/-- Modelled from the spec: `backend/server.py` is not under src.
Spec 4.3 `classify(ticket)`: on success writes `ai_category`,
`ai_confidence` and `ai_response` to the store, moving `status` to
`classified` if it was `pending`; a confidence outside `[0,1]` is a
`ValidationError` on the response, treated as a failed attempt.  On any
failure the store is untouched and the result is `unavailable` — failures
never surface as exceptions past the orchestrator boundary. -/
def classifyTicket (s : Store) (ticketId : String) (outcome : ClassifyOutcome) :
    Store × ClassifyResult :=
  match outcome with
  | .fail _ => (s, ClassifyResult.unavailable)
  | .ok c =>
    if c.confidence < 0 ∨ 1 < c.confidence then (s, ClassifyResult.unavailable)
    else
      (List.map (fun t =>
          if t.id == ticketId then
            { t with
                ai_category := some c.category
                ai_confidence := some c.confidence
                ai_response := some c.response
                status := if t.status = Status.pending then Status.classified
                          else t.status }
          else t) s,
       ClassifyResult.classified)

/-- Modelled from the spec: `backend/server.py` is not under src.
Spec 4.6 `resolve(id, actor)`: `NotFound` if the id is absent,
`InvalidTransition` if the ticket is already `resolved` (the reference
behavior rejects repeats); otherwise sets `status = resolved`,
`resolved_at = now`, `resolved_by = actor`. -/
def resolveOp (s : Store) (ticketId : String) (actor : String) (now : String) :
    Except ApiError Store :=
  match Store.get? s ticketId with
  | none => .error ApiError.notFound
  | some t =>
    if t.status = Status.resolved then .error ApiError.invalidTransition
    else
      .ok (List.map (fun u =>
        if u.id == ticketId then
          { u with
              status := Status.resolved
              resolved_at := some now
              resolved_by := some actor }
        else u) s)

/-- The derived analytics snapshot (spec section 3). -/
structure Analytics where
  total_tickets : Nat
  status_counts : Status → Nat
  category_counts : String → Nat

/-- Increment one key of a counting map. -/
def bump {α : Type} [DecidableEq α] (f : α → Nat) (k : α) : α → Nat :=
  fun x => if x = k then f x + 1 else f x

/-- One step of the analytics tally: increment the status counter at the
ticket's status and the category counter at its `ai_category` (or the
`Unclassified` bucket). -/
def tallyStep (acc : (Status → Nat) × (String → Nat)) (t : Ticket) :
    (Status → Nat) × (String → Nat) :=
  (bump acc.1 t.status,
   match t.ai_category with
   | some c => bump acc.2 c
   | none => bump acc.2 "Unclassified")

/-- Modelled from the spec: `backend/server.py` is not under src.
Spec 4.5 `summarize(tickets)`: a single pass incrementing
`status_counts[ticket.status]` and, for the category axis, `ai_category`
when present or the `Unclassified` bucket; `total_tickets = len(tickets)`.
Pure and recomputed on each request. -/
def summarize (tickets : List Ticket) : Analytics :=
  let counts := List.foldl tallyStep (fun _ => 0, fun _ => 0) tickets
  { total_tickets := tickets.length
    status_counts := counts.1
    category_counts := counts.2 }

/-- The sum of the per-status counts over the whole status domain. -/
def sumStatusCounts (a : Analytics) : Nat :=
  a.status_counts Status.pending + a.status_counts Status.classified +
  a.status_counts Status.resolved

/-- The store-mutating operations of the core (spec sections 4.1, 4.3,
4.6); classification failures are included as explicit no-change events. -/
inductive StoreOp where
  | create (input : TicketInput) (newId : String) (now : String)
  | classify (ticketId : String) (outcome : ClassifyOutcome)
  | resolve (ticketId : String) (actor : String) (now : String)
deriving DecidableEq, Repr

/-- Apply one operation; rejected operations (validation, not-found,
invalid-transition errors) leave the store unchanged. -/
def applyOp (s : Store) : StoreOp → Store
  | .create input newId now =>
      match createTicketOp s input newId now with
      | .ok (s2, _) => s2
      | .error _ => s
  | .classify ticketId outcome => (classifyTicket s ticketId outcome).1
  | .resolve ticketId actor now =>
      match resolveOp s ticketId actor now with
      | .ok s2 => s2
      | .error _ => s

/-- Apply a sequence of operations in order. -/
def applyOps (s : Store) (ops : List StoreOp) : Store :=
  List.foldl applyOp s ops

/-! ## Counting helpers and sample records -/

/-- Number of occurrences of a character in a string (used to detect raw
markup characters in rendered HTML). -/
def countChar (x : Char) (s : String) : Nat := s.data.count x

/-- The sum of the per-status counts over the whole status domain. -/
def statusSum (f : Status → Nat) : Nat :=
  f Status.pending + f Status.classified + f Status.resolved

/-- A concrete pre-state for the health monitor: the status element is
present and the submit button starts disabled. -/
def uiState0 : UIState :=
  { aiStatusPresent := true
    statusIcon := "⏳"
    statusText := "Checking AI connection..."
    statusClasses := []
    submitDisabled := true
    btnText := "Submit Ticket"
    aiConnected := false }

/-- A concrete pending ticket. -/
def ticket0 : Ticket :=
  { id := "T-0001"
    employee_name := "Jane Doe"
    employee_email := "jane@co.com"
    subject := "PTO balance"
    description := "How many days do I have left?"
    status := Status.pending
    ai_category := none
    ai_confidence := none
    ai_response := none
    created_at := "2025-01-01T00:00:00Z"
    resolved_at := none
    resolved_by := none }

/-- `ticket0` after a successful resolve by Alice. -/
def ticket0r : Ticket :=
  { ticket0 with
      status := Status.resolved
      resolved_at := some "2025-01-02T00:00:00Z"
      resolved_by := some "Alice" }

/-- A concrete valid submission body. -/
def input0 : TicketInput :=
  { employee_name := "Jane Doe"
    employee_email := "jane@co.com"
    subject := "PTO balance"
    description := "How many days do I have left?" }

/-- The record `createTicketOp` builds from `input0` with id `T-0001`. -/
def ticketNew : Ticket :=
  { id := "T-0001"
    employee_name := "Jane Doe"
    employee_email := "jane@co.com"
    subject := "PTO balance"
    description := "How many days do I have left?"
    status := Status.pending
    ai_category := none
    ai_confidence := none
    ai_response := none
    created_at := "2025-01-01T00:00:00Z"
    resolved_at := none
    resolved_by := none }

/-- A ticket whose machine-generated `ai_category` contains raw markup. -/
def ticketCatMarkup : Ticket :=
  { ticket0 with ai_category := some "<b>PTO</b>" }

/-- The same ticket with a plain category label. -/
def ticketCatPlain : Ticket :=
  { ticket0 with ai_category := some "PTO" }

/-- A ticket whose user-supplied fields all carry an injection attempt. -/
def ticketHostile : Ticket :=
  { ticket0 with
      employee_name := "<img src=x onerror=alert(1)>"
      employee_email := "<b>jane</b>@co.com"
      subject := "<script>steal()</script>"
      description := "<iframe></iframe>"
      ai_response := some "<script>x</script>" }

/-- `ticket0` with the same machine fields and a benign nonempty
`ai_response`. -/
def ticketBenign : Ticket :=
  { ticket0 with ai_response := some "Please check the PTO portal." }

/-- A date formatter that erases its input (used for closed evaluations). -/
def fdNull : String → String := fun _ => ""

/-! ## Claim theorems: frontend submission path -/

/-- C1: any failure of the webhook dispatch (network error, non-2xx
response, timeout) is caught and swallowed inside `triggerN8nWorkflow`: the
function never rejects; consequently the submit handler's trace — hence
the success outcome shown to the submitter — is identical for every
dispatch outcome, and no step of the handler mutates ticket state after
creation. -/
theorem c1_dispatch_failure_isolated :
    (∀ df : DispatchFetch, ∃ v, triggerN8nWorkflow df = Except.ok v) ∧
    (∀ (cf : CreateFetch) (df df2 : DispatchFetch),
      submitHandler cf df = submitHandler cf df2) ∧
    (∀ (cf : CreateFetch) (df : DispatchFetch) (i : String),
      SubmitEvent.storeMutation i ∉ submitHandler cf df) := by
  refine ⟨?_, ?_, ?_⟩
  · intro df
    cases df <;> exact ⟨_, rfl⟩
  · intro cf df df2
    cases cf with
    | networkError => cases df <;> cases df2 <;> rfl
    | response ok t => cases ok <;> cases df <;> cases df2 <;> rfl
  · intro cf df i
    cases cf with
    | networkError =>
      cases df <;>
        simp [submitHandler, createTicket, triggerN8nWorkflow, fetchN8n, jsTry]
    | response ok t =>
      cases ok <;> cases df <;>
        simp [submitHandler, createTicket, triggerN8nWorkflow, fetchN8n, jsTry]

/-- C2 counterexample: the submission response does await dispatch
completion.  On a concrete successful submission the handler's trace places
`dispatchCompleted` strictly before `successShown`: the success state is
shown only after the awaited `triggerN8nWorkflow` call has settled, so the
dispatch does not run detached from the submission path. -/
theorem c2_counterexample_success_awaits_dispatch :
    submitHandler (CreateFetch.response true ticket0) (DispatchFetch.response 200) =
      [SubmitEvent.loadingSet true, SubmitEvent.ticketCreated "T-0001",
       SubmitEvent.dispatchStarted, SubmitEvent.dispatchCompleted,
       SubmitEvent.successShown "T-0001", SubmitEvent.formReset,
       SubmitEvent.loadingSet false] ∧
    List.findIdx (fun e => e == SubmitEvent.dispatchCompleted)
        (submitHandler (CreateFetch.response true ticket0) (DispatchFetch.response 200)) <
      List.findIdx (fun e => e == SubmitEvent.successShown "T-0001")
        (submitHandler (CreateFetch.response true ticket0) (DispatchFetch.response 200)) := by
  decide

/-- C2 amended: the submit handler awaits the webhook dispatch — for every
created ticket and every dispatch outcome the trace runs creation, then
dispatch start and completion, and only then the success display; the
dispatch is not detached, but because it swallows every failure the awaited
call can only delay, never change, the submission's success outcome. -/
theorem c2_handler_awaits_dispatch_before_success (t : Ticket) (df : DispatchFetch) :
    submitHandler (CreateFetch.response true t) df =
      [SubmitEvent.loadingSet true, SubmitEvent.ticketCreated t.id,
       SubmitEvent.dispatchStarted, SubmitEvent.dispatchCompleted,
       SubmitEvent.successShown t.id, SubmitEvent.formReset,
       SubmitEvent.loadingSet false] := by
  cases df <;> rfl

/-- C9: the webhook dispatch is attempted only after `createTicket`
succeeds.  When the creation fetch fails at the network level or returns a
non-ok response, the handler jumps to its catch block and never starts a
dispatch; when creation succeeds, the trace begins with the creation step
and only then the dispatch. -/
theorem c9_no_dispatch_without_creation :
    (∀ df : DispatchFetch,
      submitHandler CreateFetch.networkError df =
        [SubmitEvent.loadingSet true, SubmitEvent.errorAlert,
         SubmitEvent.loadingSet false]) ∧
    (∀ (df : DispatchFetch) (t : Ticket),
      submitHandler (CreateFetch.response false t) df =
        [SubmitEvent.loadingSet true, SubmitEvent.errorAlert,
         SubmitEvent.loadingSet false]) ∧
    (∀ df : DispatchFetch,
      SubmitEvent.dispatchStarted ∉ submitHandler CreateFetch.networkError df) ∧
    (∀ (df : DispatchFetch) (t : Ticket),
      SubmitEvent.dispatchStarted ∉ submitHandler (CreateFetch.response false t) df) ∧
    (∀ (t : Ticket) (df : DispatchFetch),
      ∃ rest, submitHandler (CreateFetch.response true t) df =
        [SubmitEvent.loadingSet true, SubmitEvent.ticketCreated t.id,
         SubmitEvent.dispatchStarted] ++ rest) := by
  refine ⟨?_, ?_, ?_, ?_, ?_⟩
  · intro df; cases df <;> rfl
  · intro df t; cases df <;> rfl
  · intro df
    cases df <;>
      simp [submitHandler, createTicket, triggerN8nWorkflow, fetchN8n, jsTry]
  · intro df t
    cases df <;>
      simp [submitHandler, createTicket, triggerN8nWorkflow, fetchN8n, jsTry]
  · intro t df
    cases df <;> exact ⟨_, rfl⟩

/-! ## Claim theorems: health monitor -/

/-- C7: the `loading` branch of `checkAIHealth` schedules exactly one
re-probe with a fixed 5000 ms (5 s) delay; the `connected`, `unreachable`
and probe-error branches schedule none. -/
theorem c7_loading_schedules_one_reprobe (pre : UIState) (probe : ProbeOutcome)
    (h : pre.aiStatusPresent = true) :
    (checkAIHealth pre probe).2 =
      if probeIsLoading probe = true then [5000] else [] := by
  cases probe with
  | fetchError => simp [checkAIHealth, probeIsLoading, h]
  | ok health =>
    by_cases hc : health.statusField = "connected"
    · simp [checkAIHealth, probeIsLoading, h, hc]
    · by_cases hl : health.statusField = "loading"
      · simp [checkAIHealth, probeIsLoading, h, hc, hl]
      · simp [checkAIHealth, probeIsLoading, h, hc, hl]

/-- C7 witness: on a concrete loading probe the monitor schedules the
single 5-second re-probe. -/
theorem c7_witness :
    (checkAIHealth uiState0 (ProbeOutcome.ok ⟨"loading", none⟩)).2 = [5000] := by
  have h := c7_loading_schedules_one_reprobe uiState0
    (ProbeOutcome.ok ⟨"loading", none⟩) (by decide)
  simpa using h

/-- C3 counterexample: the loading branch does not enable the submit
control.  Starting from a pre-state whose submit button is disabled (the
status element being present), a probe reporting `loading` leaves the
button disabled after the health check completes — submission is blocked,
not merely relabeled. -/
theorem c3_counterexample_loading_keeps_disabled :
    uiState0.aiStatusPresent = true ∧ uiState0.submitDisabled = true ∧
    (checkAIHealth uiState0 (ProbeOutcome.ok ⟨"loading", none⟩)).1.submitDisabled = true := by
  decide

/-- C3 amended: after the health check completes, the submit control is
enabled by the `connected`, `unreachable` and probe-error branches; the
`loading` branch only degrades the presentation and leaves the control's
previous enabled/disabled state unchanged (so a control that was disabled
before the probe stays disabled until a later probe leaves `loading`). -/
theorem c3_submit_enabled_outside_loading (pre : UIState) (probe : ProbeOutcome)
    (h : pre.aiStatusPresent = true) :
    (checkAIHealth pre probe).1.submitDisabled =
      if probeIsLoading probe = true then pre.submitDisabled else false := by
  cases probe with
  | fetchError => simp [checkAIHealth, probeIsLoading, h]
  | ok health =>
    by_cases hc : health.statusField = "connected"
    · simp [checkAIHealth, probeIsLoading, h, hc]
    · by_cases hl : health.statusField = "loading"
      · simp [checkAIHealth, probeIsLoading, h, hc, hl]
      · simp [checkAIHealth, probeIsLoading, h, hc, hl]

/-- C3 amended witness: a concrete unreachable probe enables the disabled
submit control. -/
theorem c3_witness :
    (checkAIHealth uiState0 (ProbeOutcome.ok ⟨"unreachable", some "down"⟩)).1.submitDisabled
      = false := by
  have h := c3_submit_enabled_outside_loading uiState0
    (ProbeOutcome.ok ⟨"unreachable", some "down"⟩) (by decide)
  simpa using h

/-! ## Claim theorems: dashboard resolve action -/

/-- C8: once confirmed, the dashboard resolve action POSTs to
`/api/tickets/:id/resolve` with content type `application/json` and exactly
the body `\x7b"action":"resolved","user":"Dashboard User"\x7d`; a non-ok
response (and a network error) produces only the failure alert — the modal
stays open and no data refresh happens — while an ok response closes the
modal and refreshes. -/
theorem c8_resolve_request_shape (ticketId : String) :
    (∀ rf : ResolveFetch,
      (resolveTicket ticketId true rf).1 =
        some { url := "/api/tickets/" ++ ticketId ++ "/resolve"
               method := "POST"
               contentType := "application/json"
               body := "\x7b\"action\":\"resolved\",\"user\":\"Dashboard User\"\x7d" }) ∧
    (resolveTicket ticketId true (ResolveFetch.response false)).2 =
      [ResolveUiEvent.failureAlert] ∧
    ResolveUiEvent.dataRefreshed ∉ (resolveTicket ticketId true (ResolveFetch.response false)).2 ∧
    ResolveUiEvent.modalClosed ∉ (resolveTicket ticketId true (ResolveFetch.response false)).2 ∧
    (resolveTicket ticketId true ResolveFetch.networkError).2 =
      [ResolveUiEvent.failureAlert] ∧
    (resolveTicket ticketId true (ResolveFetch.response true)).2 =
      [ResolveUiEvent.modalClosed, ResolveUiEvent.dataRefreshed,
       ResolveUiEvent.successAlert] := by
  refine ⟨?_, rfl, ?_, ?_, rfl, rfl⟩
  · intro rf
    cases rf with
    | networkError => rfl
    | response ok => cases ok <;> rfl
  · simp [resolveTicket, resolveBody]
  · simp [resolveTicket, resolveBody]

/-! ## Claim theorems: analytics invariant -/

/-- Bumping a status counter raises the three-way sum by exactly one. -/
theorem statusSum_bump (f : Status → Nat) (s : Status) :
    statusSum (bump f s) = statusSum f + 1 := by
  cases s <;> simp [statusSum, bump] <;> omega

/-- The status-count half of the tally adds the list length to the sum of
any starting counters. -/
theorem statusSum_foldl (tickets : List Ticket)
    (fg : (Status → Nat) × (String → Nat)) :
    statusSum (List.foldl tallyStep fg tickets).1 =
      statusSum fg.1 + tickets.length := by
  induction tickets generalizing fg with
  | nil => simp
  | cons t ts ih =>
    have h1 : statusSum (tallyStep fg t).1 = statusSum fg.1 + 1 := by
      simp [tallyStep, statusSum_bump]
    simp only [List.foldl_cons, List.length_cons, ih (tallyStep fg t), h1]
    omega

/-- C4: for every store state, the analytics snapshot satisfies
`sum(status_counts.values()) == total_tickets`: the per-status counts
produced by the aggregator add up exactly to the number of tickets. -/
theorem c4_status_counts_sum_to_total (tickets : List Ticket) :
    sumStatusCounts (summarize tickets) = (summarize tickets).total_tickets := by
  have h := statusSum_foldl tickets (fun _ => 0, fun _ => 0)
  simpa [sumStatusCounts, summarize, statusSum] using h

/-! ## Claim theorems: status monotonicity -/

/-- Lookup in an extended store still finds the original record. -/
theorem get?_append_left (s l2 : Store) (ticketId : String) (t : Ticket)
    (h : Store.get? s ticketId = some t) :
    Store.get? (s ++ l2) ticketId = some t := by
  induction s with
  | nil => simp [Store.get?, List.find?] at h
  | cons u us ih =>
    simp only [Store.get?, List.cons_append, List.find?] at h ⊢
    cases hu : (u.id == ticketId) with
    | true => simpa [hu] using h
    | false =>
      simp only [hu] at h ⊢
      exact ih h

/-- Lookup commutes with an id-preserving per-record map. -/
theorem get?_map_id_preserving (s : Store) (f : Ticket → Ticket)
    (hf : ∀ t, (f t).id = t.id) (ticketId : String) :
    Store.get? (List.map f s) ticketId = Option.map f (Store.get? s ticketId) := by
  induction s with
  | nil => rfl
  | cons u us ih =>
    simp only [Store.get?, List.map_cons, List.find?] at ih ⊢
    rw [hf u]
    cases hu : (u.id == ticketId) with
    | true => rfl
    | false => exact ih

/-- One store operation never lowers the status rank of an existing
record (and never removes it). -/
theorem applyOp_status_mono (s : Store) (op : StoreOp) (ticketId : String)
    (t : Ticket) (h : Store.get? s ticketId = some t) :
    ∃ t2, Store.get? (applyOp s op) ticketId = some t2 ∧
      t.status.rank ≤ t2.status.rank := by
  cases op with
  | create input newId now =>
    by_cases hv : input.valid = true
    · refine ⟨t, ?_, le_refl _⟩
      simp only [applyOp, createTicketOp, hv, if_true]
      exact get?_append_left s _ ticketId t h
    · refine ⟨t, ?_, le_refl _⟩
      simp only [applyOp, createTicketOp, hv]
      simpa using h
  | classify opId outcome =>
    cases outcome with
    | fail f => exact ⟨t, h, le_refl _⟩
    | ok c =>
      by_cases hr : c.confidence < 0 ∨ 1 < c.confidence
      · simp only [applyOp, classifyTicket, hr, if_true]
        exact ⟨t, h, le_refl _⟩
      · simp only [applyOp, classifyTicket, hr, if_false]
        rw [get?_map_id_preserving]
        · rw [h]
          refine ⟨_, rfl, ?_⟩
          by_cases hid : (t.id == opId) = true
          · simp only [hid, if_true]
            cases ht : t.status <;> simp [ht, Status.rank]
          · simp only [Bool.not_eq_true] at hid
            simp [hid]
        · intro u
          by_cases hid : (u.id == opId) = true <;> simp [hid]
  | resolve opId actor now =>
    cases hfind : Store.get? s opId with
    | none =>
      refine ⟨t, ?_, le_refl _⟩
      simp only [applyOp, resolveOp, hfind]
      exact h
    | some u =>
      by_cases hres : u.status = Status.resolved
      · refine ⟨t, ?_, le_refl _⟩
        simp only [applyOp, resolveOp, hfind, hres, if_true]
        exact h
      · simp only [applyOp, resolveOp, hfind, hres, if_false]
        rw [get?_map_id_preserving]
        · rw [h]
          refine ⟨_, rfl, ?_⟩
          by_cases hid : (t.id == opId) = true
          · simp only [hid, if_true]
            cases ht : t.status <;> simp [Status.rank]
          · simp only [Bool.not_eq_true] at hid
            simp [hid]
        · intro v
          by_cases hid : (v.id == opId) = true <;> simp [hid]

/-- A whole sequence of operations never lowers the status rank of an
existing record. -/
theorem applyOps_status_mono (ops : List StoreOp) (s : Store) (ticketId : String)
    (t : Ticket) (h : Store.get? s ticketId = some t) :
    ∃ t2, Store.get? (applyOps s ops) ticketId = some t2 ∧
      t.status.rank ≤ t2.status.rank := by
  induction ops generalizing s t with
  | nil => exact ⟨t, h, le_refl _⟩
  | cons op ops ih =>
    obtain ⟨t1, h1, hr1⟩ := applyOp_status_mono s op ticketId t h
    obtain ⟨t2, h2, hr2⟩ := ih (applyOp s op) t1 h1
    exact ⟨t2, h2, le_trans hr1 hr2⟩

/-- C5: a ticket is created `pending`, and under any sequence of store
operations its status only moves forward along
`pending → classified → resolved`; in particular a record observed as
`resolved` is still `resolved` after any further operations. -/
theorem c5_status_monotone :
    (∀ (s : Store) (input : TicketInput) (newId now : String)
       (s2 : Store) (tc : Ticket),
      createTicketOp s input newId now = Except.ok (s2, tc) →
        tc.status = Status.pending) ∧
    (∀ (s : Store) (ops : List StoreOp) (ticketId : String) (t t2 : Ticket),
      Store.get? s ticketId = some t →
      Store.get? (applyOps s ops) ticketId = some t2 →
        t.status.rank ≤ t2.status.rank ∧
        (t.status = Status.resolved → t2.status = Status.resolved)) := by
  constructor
  · intro s input newId now s2 tc hcreate
    by_cases hv : input.valid = true
    · simp only [createTicketOp, hv, if_true, Except.ok.injEq, Prod.mk.injEq] at hcreate
      obtain ⟨h1, h2⟩ := hcreate
      rw [← h2]
    · simp [createTicketOp, hv] at hcreate
  · intro s ops ticketId t t2 h h2
    obtain ⟨t3, h3, hr⟩ := applyOps_status_mono ops s ticketId t h
    rw [h2] at h3
    obtain rfl : t2 = t3 := by injection h3
    refine ⟨hr, ?_⟩
    intro hres
    rw [hres] at hr
    cases ht2 : t2.status
    · rw [ht2] at hr; simp [Status.rank] at hr
    · rw [ht2] at hr; simp [Status.rank] at hr
    · rfl

/-- C5 witness: a concrete pending ticket is created pending, and after a
resolve operation its status rank has not decreased and resolution is
preserved. -/
theorem c5_witness :
    ticketNew.status = Status.pending ∧
    (ticket0.status.rank ≤ ticket0r.status.rank ∧
      (ticket0.status = Status.resolved → ticket0r.status = Status.resolved)) := by
  constructor
  · exact c5_status_monotone.1 [] input0 "T-0001" "2025-01-01T00:00:00Z"
      [ticketNew] ticketNew (by rfl)
  · exact c5_status_monotone.2 [ticket0]
      [StoreOp.resolve "T-0001" "Alice" "2025-01-02T00:00:00Z"]
      "T-0001" ticket0 ticket0r (by decide) (by decide)

/-! ## Claim theorems: classification failure isolation -/

/-- C6: a failed classification attempt (timeout, service error, malformed
response) returns the `unavailable` result value — it is not an exception —
leaves the store untouched, and the target ticket therefore remains exactly
as it was: `pending` with `ai_category`, `ai_confidence` and `ai_response`
all absent. -/
theorem c6_classification_failure_leaves_pending
    (s : Store) (ticketId : String) (f : ClassifyFailure) (t : Ticket)
    (h : Store.get? s ticketId = some t) (hp : t.status = Status.pending)
    (hc : t.ai_category = none) (hcf : t.ai_confidence = none)
    (hr : t.ai_response = none) :
    classifyTicket s ticketId (ClassifyOutcome.fail f) =
      (s, ClassifyResult.unavailable) ∧
    Store.get? (classifyTicket s ticketId (ClassifyOutcome.fail f)).1 ticketId
      = some t ∧
    t.status = Status.pending ∧ t.ai_category = none ∧
    t.ai_confidence = none ∧ t.ai_response = none := by
  exact ⟨rfl, h, hp, hc, hcf, hr⟩

/-- C6 witness: a concrete timeout against a concrete pending store leaves
the ticket pending and unclassified, reporting `unavailable`. -/
theorem c6_witness :
    classifyTicket [ticket0] "T-0001" (ClassifyOutcome.fail ClassifyFailure.timeout) =
      ([ticket0], ClassifyResult.unavailable) ∧
    Store.get? (classifyTicket [ticket0] "T-0001"
        (ClassifyOutcome.fail ClassifyFailure.timeout)).1 "T-0001" = some ticket0 ∧
    ticket0.status = Status.pending ∧ ticket0.ai_category = none ∧
    ticket0.ai_confidence = none ∧ ticket0.ai_response = none := by
  exact c6_classification_failure_leaves_pending [ticket0] "T-0001"
    ClassifyFailure.timeout ticket0 (by decide) (by decide) (by decide)
    (by decide) (by decide)

/-! ## Claim theorems: HTML escaping in the dashboard -/

/-- Character counts distribute over string concatenation. -/
theorem countChar_append (x : Char) (a b : String) :
    countChar x (a ++ b) = countChar x a + countChar x b := by
  simp [countChar, String.data_append, List.count_append]

/-- The escaped form of a single character contains no raw `<`. -/
theorem countChar_lt_escapeChar (c : Char) : countChar '<' (escapeChar c) = 0 := by
  unfold escapeChar
  by_cases h1 : c = '&'
  · simp only [h1, if_true]; decide
  · simp only [h1, if_false]
    by_cases h2 : c = '<'
    · simp only [h2, if_true]; decide
    · simp only [h2, if_false]
      by_cases h3 : c = '>'
      · simp only [h3, if_true]; decide
      · simp only [h3, if_false]
        simp [countChar, String.singleton, List.count_cons, h2]

/-- The escaped form of a single character contains no raw `>`. -/
theorem countChar_gt_escapeChar (c : Char) : countChar '>' (escapeChar c) = 0 := by
  unfold escapeChar
  by_cases h1 : c = '&'
  · simp only [h1, if_true]; decide
  · simp only [h1, if_false]
    by_cases h2 : c = '<'
    · simp only [h2, if_true]; decide
    · simp only [h2, if_false]
      by_cases h3 : c = '>'
      · simp only [h3, if_true]; decide
      · simp only [h3, if_false]
        simp [countChar, String.singleton, List.count_cons, h3]

/-- An escaped string contains no raw `<`. -/
theorem countChar_lt_escapeHtmlStr (s : String) :
    countChar '<' (escapeHtmlStr s) = 0 := by
  unfold escapeHtmlStr
  suffices h : ∀ l : List Char,
      countChar '<' (List.foldr (fun c acc => escapeChar c ++ acc) "" l) = 0 by
    exact h s.data
  intro l
  induction l with
  | nil => decide
  | cons c cs ih =>
    simp only [List.foldr_cons]
    rw [countChar_append]
    simp [countChar_lt_escapeChar, ih]

/-- An escaped string contains no raw `>`. -/
theorem countChar_gt_escapeHtmlStr (s : String) :
    countChar '>' (escapeHtmlStr s) = 0 := by
  unfold escapeHtmlStr
  suffices h : ∀ l : List Char,
      countChar '>' (List.foldr (fun c acc => escapeChar c ++ acc) "" l) = 0 by
    exact h s.data
  intro l
  induction l with
  | nil => decide
  | cons c cs ih =>
    simp only [List.foldr_cons]
    rw [countChar_append]
    simp [countChar_gt_escapeChar, ih]

/-- The output of `escapeHtml` contains no raw `<`, for any input. -/
theorem countChar_lt_escapeHtml (o : Option String) :
    countChar '<' (escapeHtml o) = 0 := by
  match o with
  | none => rfl
  | some s =>
    unfold escapeHtml
    by_cases h : s = ""
    · simp [h]; rfl
    · simp [h, countChar_lt_escapeHtmlStr]

/-- The output of `escapeHtml` contains no raw `>`, for any input. -/
theorem countChar_gt_escapeHtml (o : Option String) :
    countChar '>' (escapeHtml o) = 0 := by
  match o with
  | none => rfl
  | some s =>
    unfold escapeHtml
    by_cases h : s = ""
    · simp [h]; rfl
    · simp [h, countChar_gt_escapeHtmlStr]

set_option maxRecDepth 100000 in
/-- C10: `escapeHtml` maps null/undefined and the empty string to the empty
string, and every escaped string is free of raw markup characters; in the
rendered table row and detail modal every user-supplied field
(`employee_name`, `employee_email`, `subject`, `description`,
`ai_response`) passes through `escapeHtml`, so the number of raw `<`
characters in the rendered markup does not depend on their contents (two
tickets agreeing on the machine fields render with identical `<`-counts no
matter what user text they carry); the machine-generated `ai_category`, by
contrast, is interpolated unescaped — markup placed there reaches the
output raw (final conjunct: a category carrying `<b>` tags adds exactly its
two raw `<`). -/
theorem c10_user_text_escaped (s : String) (fd : String → String) (t t2 : Ticket)
    (hid : t.id = t2.id) (hst : t.status = t2.status)
    (hcat : t.ai_category = t2.ai_category)
    (hconf : t.ai_confidence = t2.ai_confidence)
    (hcr : t.created_at = t2.created_at)
    (hresp : jsTruthyStr t.ai_response = jsTruthyStr t2.ai_response) :
    escapeHtml none = "" ∧ escapeHtml (some "") = "" ∧
    countChar '<' (escapeHtmlStr s) = 0 ∧ countChar '>' (escapeHtmlStr s) = 0 ∧
    countChar '<' (updateTableRow fd t) = countChar '<' (updateTableRow fd t2) ∧
    countChar '<' (showDetailHtml fd t) = countChar '<' (showDetailHtml fd t2) ∧
    countChar '<' (updateTableRow fdNull ticketCatMarkup) =
      countChar '<' (updateTableRow fdNull ticketCatPlain) + 2 := by
  refine ⟨rfl, rfl, countChar_lt_escapeHtmlStr s, countChar_gt_escapeHtmlStr s,
    ?_, ?_, ?_⟩
  · simp only [updateTableRow, countChar_append, countChar_lt_escapeHtml,
      hid, hst, hcat, hconf, hcr]
  · by_cases hb : jsTruthyStr t.ai_response = true
    · have hb2 : jsTruthyStr t2.ai_response = true := hresp ▸ hb
      simp only [showDetailHtml, hid, hst, hcat, hconf, hcr, hb, hb2, if_true,
        countChar_append, countChar_lt_escapeHtml]
    · have hb1 : jsTruthyStr t.ai_response = false := by
        cases hx : jsTruthyStr t.ai_response
        · rfl
        · exact absurd hx hb
      have hb2 : jsTruthyStr t2.ai_response = false := by
        rw [← hresp]; exact hb1
      simp only [showDetailHtml, hid, hst, hcat, hconf, hcr, hb1, hb2,
        Bool.false_eq_true, if_false, countChar_append, countChar_lt_escapeHtml]
  · decide

/-- C10 witness: a ticket whose every user field carries a script-injection
attempt renders with exactly the same number of raw `<` characters as a
benign ticket with the same machine fields, while the markup-free guarantees
of `escapeHtml` hold on a concrete hostile string. -/
theorem c10_witness :
    escapeHtml none = "" ∧ escapeHtml (some "") = "" ∧
    countChar '<' (escapeHtmlStr "<script>alert(1)</script>") = 0 ∧
    countChar '>' (escapeHtmlStr "<script>alert(1)</script>") = 0 ∧
    countChar '<' (updateTableRow fdNull ticketHostile) =
      countChar '<' (updateTableRow fdNull ticketBenign) ∧
    countChar '<' (showDetailHtml fdNull ticketHostile) =
      countChar '<' (showDetailHtml fdNull ticketBenign) ∧
    countChar '<' (updateTableRow fdNull ticketCatMarkup) =
      countChar '<' (updateTableRow fdNull ticketCatPlain) + 2 :=
  c10_user_text_escaped "<script>alert(1)</script>" fdNull ticketHostile ticketBenign
    rfl rfl rfl rfl rfl (by decide)

end Triage
